import Mathlib

/-!
Verification development for the AAHAR/ScanBite repository.

The repository consists of two server-side AI flow modules,
analyze-barcode-flow and analyze-food-item, in several revisions.
Each flow performs a deterministic computation around two external
effects: an HTTP fetch (Open Food Facts, or a mock database in older
revisions) and a hosted-model prompt call.  We embed each flow as a
pure function over an explicit description of the outcome of those
effects (a FetchResult and an AIResult), translating the JavaScript
bodies directly: optional JSON fields become Option values, the
JavaScript truthiness of strings (empty string is falsy) is modelled
by jsOrS, the regex operations on ingredient strings and allergen
tags are modelled character by character, and numeric literals are
modelled as rationals (no arithmetic is ever performed on them).
-/

/-- Model of the JavaScript regex class backslash-s and of the character
set removed by String.prototype.trim (WhiteSpace plus LineTerminator). -/
def isJsSpace (c : Char) : Bool :=
  let n := c.toNat
  (n == 0x09) || (n == 0x0a) || (n == 0x0b) || (n == 0x0c) || (n == 0x0d) ||
  (n == 0x20) || (n == 0xa0) || (n == 0x1680) ||
  (decide (0x2000 ≤ n) && decide (n ≤ 0x200a)) ||
  (n == 0x2028) || (n == 0x2029) || (n == 0x202f) || (n == 0x205f) ||
  (n == 0x3000) || (n == 0xfeff)

/-- The two separator characters of the ingredient-splitting regexes. -/
def isSepChar (c : Char) : Bool := (c == ',') || (c == ';')

/-- ASCII lowercase letter, as matched by the regex class [a-z]. -/
def isAsciiLowerCh (c : Char) : Bool :=
  decide (0x61 ≤ c.toNat) && decide (c.toNat ≤ 0x7a)

/-- Model of String.prototype.trim on a character list: drop JS
whitespace from both ends. -/
def trimJsL (l : List Char) : List Char :=
  ((l.dropWhile isJsSpace).reverse.dropWhile isJsSpace).reverse

/-- Model of the JavaScript expression a || b for an optional string a:
undefined and the empty string are falsy. -/
def jsOrS (a : Option String) (b : String) : String :=
  match a with
  | some s => if s = "" then b else s
  | none => b

/-- Model of the JavaScript expression a || b for an optional string a
when the right operand may itself be undefined. -/
def jsOrOptS (a : Option String) (b : Option String) : Option String :=
  match a with
  | some s => if s = "" then b else some s
  | none => b

/-- Prepend a character to the first fragment of a split result. -/
def consHead (c : Char) : List (List Char) → List (List Char)
  | [] => [[c]]
  | f :: fs => (c :: f) :: fs

/-- Apply a function to every fragment except the first. -/
def mapTail (g : List Char → List Char) : List (List Char) → List (List Char)
  | [] => []
  | f :: fs => f :: fs.map g

/-- Split at every comma or semicolon (proof-support function relating
the two revisions of the splitting regex). -/
def splitPlain : List Char → List (List Char)
  | [] => [[]]
  | c :: rest =>
    if isSepChar c then [] :: splitPlain rest else consHead c (splitPlain rest)

/-- Model of String.prototype.split on the regex comma-or-semicolon
followed by optional whitespace (final revision of the barcode flow).
The boolean state records that the previous character belonged to a
separator match whose greedy whitespace part may continue. -/
def splitFinalGo : List Char → Bool → List (List Char)
  | [], _ => [[]]
  | c :: rest, skipWs =>
    if skipWs && isJsSpace c then splitFinalGo rest true
    else if isSepChar c then [] :: splitFinalGo rest true
    else consHead c (splitFinalGo rest false)

/-- True when the first parenthesis character of the list is a closing
one: this is when the negative lookahead of the earlier splitting regex
(no match of a closing parenthesis reachable over non-opening
characters) fails. -/
def firstParenClose : List Char → Bool
  | [] => false
  | c :: rest => if c == ')' then true else if c == '(' then false else firstParenClose rest

/-- Bracket analogue of firstParenClose, for the second lookahead of the
earlier splitting regex. -/
def firstBracketClose : List Char → Bool
  | [] => false
  | c :: rest => if c == ']' then true else if c == '[' then false else firstBracketClose rest

/-- Model of String.prototype.split on the earlier-revision regex:
split at a comma or semicolon only when both lookaheads succeed, that
is, when no closing parenthesis is reachable before an opening one and
no closing bracket is reachable before an opening one. -/
def splitRespecting : List Char → List (List Char)
  | [] => [[]]
  | c :: rest =>
    if isSepChar c && !firstParenClose rest && !firstBracketClose rest
    then [] :: splitRespecting rest
    else consHead c (splitRespecting rest)

/-- Model of the regex replacement removing every underscore. -/
def removeUnderscoresL (l : List Char) : List Char :=
  l.filter (fun c => c != '_')

/-- Model of the regex replacement of one leading two-lowercase-letter
language tag followed by a colon, as in the allergen tag cleanup. -/
def stripLangTag (l : List Char) : List Char :=
  match l with
  | a :: b :: c :: rest =>
    if isAsciiLowerCh a && isAsciiLowerCh b && c == ':' then rest else a :: b :: c :: rest
  | other => other

/-- Model of the allergen tag cleanup of the barcode tool: strip one
leading language prefix, replace every hyphen by a space, trim. -/
def cleanAllergenTag (tag : String) : String :=
  (trimJsL ((stripLangTag tag.toList).map (fun c => if c == '-' then ' ' else c))).asString

namespace Barcode

/-- One entry of the potentialConcerns array of the barcode output
schema. -/
structure Concern where
  concern : String
  details : Option String := none
deriving DecidableEq

/-- The AnalyzeBarcodeOutput schema of the Open Food Facts revision of
analyze-barcode-flow.  A missing optional JSON field is none. -/
structure AnalyzeBarcodeOutput where
  productName : Option String := none
  brand : Option String := none
  ingredients : Option (List String) := none
  allergens : Option (List String) := none
  potentialConcerns : Option (List Concern) := none
  overallAssessment : Option String := none
  isFound : Bool
  imageUrl : Option String := none
  source : Option String := none
deriving DecidableEq

/-- The fields of an Open Food Facts product record that the tool
requests and reads.  A field absent from the JSON is none. -/
structure OFFProduct where
  product_name : Option String := none
  product_name_en : Option String := none
  brands : Option String := none
  ingredients_text : Option String := none
  ingredients_text_en : Option String := none
  allergens_tags : Option (List String) := none
  image_url : Option String := none
deriving DecidableEq

/-- Outcome of the fetch to the Open Food Facts API, as distinguished
by the tool body: the fetch or JSON parsing throws, the response is
non-ok with some status, the API reports the product missing (status 0
or no product), or a product record is delivered. -/
inductive FetchResult where
  | fetchThrows
  | httpError (status : Nat)
  | productMissing
  | productFound (p : OFFProduct)
deriving DecidableEq

/-- The structured output of the ingredient-analysis prompt: both
fields optional. -/
structure AIAnalysis where
  potentialConcerns : Option (List Concern) := none
  overallAssessment : Option String := none
deriving DecidableEq

/-- Outcome of the prompt call: it throws, or it returns with an
optional structured output (the output can be null). -/
inductive AIResult where
  | promptThrows
  | promptOk (output : Option AIAnalysis)
deriving DecidableEq

/-- The ingredient parsing of the final revision: remove every
underscore, split at a comma or semicolon followed by optional
whitespace, trim each fragment, drop empty fragments. -/
def ingredientsArrayOf (s : String) : List String :=
  ((splitFinalGo (removeUnderscoresL s.toList) false).map
      (fun f => (trimJsL f).asString)).filter (fun ing => ing != "")

/-- The ingredient parsing of the earlier revision (part_003): split at
a comma or semicolon not inside parentheses or brackets (by the two
negative lookaheads), then remove underscores and trim each fragment,
drop empty fragments. -/
def ingredientsArrayEarlierOf (s : String) : List String :=
  ((splitRespecting s.toList).map
      (fun f => (trimJsL (removeUnderscoresL f)).asString)).filter (fun ing => ing != "")

/-- The fetchProductInfoByBarcode tool of the final revision, as a
function of the fetch outcome.  Each branch is the corresponding
return statement of the source. -/
def fetchProductInfoByBarcode : FetchResult → AnalyzeBarcodeOutput
  | .fetchThrows =>
    { isFound := false
      productName := some "Error during API request"
      brand := some ""
      ingredients := some []
      allergens := some []
      potentialConcerns := some []
      overallAssessment := some "An error occurred while trying to fetch product information from Open Food Facts. Please check your internet connection."
      source := some "Open Food Facts API (Error)" }
  | .httpError status =>
    { isFound := false
      productName := some "Product not found or API error"
      brand := some ""
      ingredients := some []
      allergens := some []
      potentialConcerns := some []
      overallAssessment := some ("Could not retrieve information from Open Food Facts. The API returned status " ++ toString status ++ ". This could be due to an invalid barcode or a temporary issue with the service.")
      source := some "Open Food Facts API" }
  | .productMissing =>
    { isFound := false
      productName := some "Product not found"
      brand := some ""
      ingredients := some []
      allergens := some []
      potentialConcerns := some []
      overallAssessment := some "Product information not found in the Open Food Facts database for this barcode. Please check if the number is correct."
      source := some "Open Food Facts API" }
  | .productFound p =>
    let productName := jsOrS p.product_name_en (jsOrS p.product_name "N/A")
    let ingredientsString := jsOrS p.ingredients_text_en (jsOrS p.ingredients_text "")
    let ingredientsArray := ingredientsArrayOf ingredientsString
    let allergensArray :=
      ((p.allergens_tags.getD []).map cleanAllergenTag).filter (fun a => a != "")
    { isFound := true
      productName := some productName
      brand := some (jsOrS p.brands "N/A")
      ingredients := some (if ingredientsArray.length > 0 then ingredientsArray
        else if ingredientsString = "" then [] else [ingredientsString])
      allergens := some allergensArray
      imageUrl := match p.image_url with
        | some u => if u = "" then none else some u
        | none => none
      source := some "Open Food Facts API" }

/-- The analyzeBarcodeFlow of the final revision, as a function of the
fetch outcome and the prompt outcome. -/
def analyzeBarcodeFlow (f : FetchResult) (ai : AIResult) : AnalyzeBarcodeOutput :=
  let productInfo := fetchProductInfoByBarcode f
  if productInfo.isFound = false ∨ productInfo.ingredients = none ∨ productInfo.ingredients = some [] then
    { productInfo with
      overallAssessment := if productInfo.isFound
        then some "Product information was found, but ingredient data is missing. Analysis cannot be performed."
        else productInfo.overallAssessment }
  else
    match ai with
    | .promptThrows =>
      { productInfo with
        overallAssessment := some "An error occurred during AI analysis of ingredients. Product details shown, but please review ingredients manually." }
    | .promptOk output =>
      { productInfo with
        potentialConcerns := some ((output.bind AIAnalysis.potentialConcerns).getD [])
        overallAssessment := some (jsOrS (output.bind AIAnalysis.overallAssessment)
          "AI analysis of ingredients could not be completed.") }

end Barcode

namespace Mock

/-- The barcode output schema of the mock-database revisions (no
imageUrl and no source field). -/
structure MockBarcodeOutput where
  productName : Option String := none
  brand : Option String := none
  ingredients : Option (List String) := none
  allergens : Option (List String) := none
  potentialConcerns : Option (List Barcode.Concern) := none
  overallAssessment : Option String := none
  isFound : Bool
deriving DecidableEq

/-- One value of the hand-written mockProductDatabase object literal,
a Partial of the output schema. -/
structure MockEntry where
  isFound : Bool
  productName : Option String := none
  brand : Option String := none
  ingredients : Option (List String) := none
  allergens : Option (List String) := none
deriving DecidableEq

/-- The hand-written mockProductDatabase object literal, shared by both
mock revisions (part_001 and part_002). -/
def mockProductDatabase : List (String × MockEntry) :=
  [ ("123456789012",
      { isFound := true
        productName := some "Super Sweet Cereal"
        brand := some "KidsCo"
        ingredients := some ["Whole Grain Oats", "Sugar", "Corn Syrup", "Artificial Colors (Red 40, Yellow 5)", "Artificial Flavors", "Salt", "Vitamin B12"]
        allergens := some ["May contain wheat"] })
  , ("987654321098",
      { isFound := true
        productName := some "Organic Veggie Crisps"
        brand := some "Healthy Snacks Inc."
        ingredients := some ["Organic Potatoes", "Organic Sunflower Oil", "Sea Salt", "Organic Rosemary Extract"]
        allergens := some [] })
  , ("112233445566",
      { isFound := true
        productName := some "Diet Soda Blast"
        brand := some "ZeroCal"
        ingredients := some ["Carbonated Water", "Caramel Color", "Aspartame", "Phosphoric Acid", "Potassium Benzoate (Preservative)", "Natural Flavors", "Caffeine"]
        allergens := some [] })
  , ("000000000000",
      { isFound := false
        productName := some "Unknown Product" }) ]

/-- JavaScript property lookup mockProductDatabase[barcodeNumber]. -/
def mockLookup (barcodeNumber : String) : Option MockEntry :=
  (mockProductDatabase.find? (fun kv => kv.1 == barcodeNumber)).map (fun kv => kv.2)

/-- The literal returned by both mock tools when the lookup fails. -/
def mockNotFoundOutput : MockBarcodeOutput :=
  { isFound := false
    productName := some "Product not found"
    brand := some ""
    ingredients := some []
    allergens := some []
    potentialConcerns := some []
    overallAssessment := some "Could not retrieve information for this barcode." }

/-- The found-case literal shared by both mock tools, built from a
database entry with JavaScript || defaults. -/
def mockFoundOutput (e : MockEntry) : MockBarcodeOutput :=
  { isFound := true
    productName := some (jsOrS e.productName "N/A")
    brand := some (jsOrS e.brand "N/A")
    ingredients := some (e.ingredients.getD [])
    allergens := some (e.allergens.getD [])
    potentialConcerns := some []
    overallAssessment := some "" }

/-- The fetchProductInfoByBarcode tool of the earliest mock revision
(part_001): any entry present in the database is treated as found. -/
def fetchProductInfoByBarcodeV1 (barcodeNumber : String) : MockBarcodeOutput :=
  match mockLookup barcodeNumber with
  | some productInfo => mockFoundOutput productInfo
  | none => mockNotFoundOutput

/-- The fetchProductInfoByBarcode tool of the second mock revision
(part_002): an entry is treated as found only when present and marked
isFound. -/
def fetchProductInfoByBarcodeV2 (barcodeNumber : String) : MockBarcodeOutput :=
  match mockLookup barcodeNumber with
  | some productInfoFromDb =>
    if productInfoFromDb.isFound then mockFoundOutput productInfoFromDb
    else mockNotFoundOutput
  | none => mockNotFoundOutput

end Mock

namespace Food

/-- One chemical residue record of the food-item output schema.
Numeric JSON literals are modelled as rationals. -/
structure ChemicalResidue where
  name : String
  estimatedPercentage : Option ℚ := none
  hazardousEffects : Option String := none
deriving DecidableEq

/-- The components object of the food-item output schema. -/
structure Components where
  waterPercentage : Option ℚ := none
  sugarPercentage : Option ℚ := none
  fiberPercentage : Option ℚ := none
  vitaminsAndMinerals : Option String := none
deriving DecidableEq

/-- The identification object of the food-item output schema (current
revision of analyze-food-item). -/
structure Identification where
  isFoodItem : Bool
  itemType : Option String := none
  name : Option String := none
  confidence : Option ℚ := none
  dominantColors : Option (List String) := none
  isOrganic : Option Bool := none
  organicReasoning : Option String := none
deriving DecidableEq

/-- The AnalyzeFoodItemOutput schema.  The edibility enum is modelled
by its string value. -/
structure AnalyzeFoodItemOutput where
  identification : Identification
  components : Option Components := none
  chemicalResidues : Option (List ChemicalResidue) := none
  edibility : Option String := none
deriving DecidableEq

/-- Input schema of the simulateResults tool (current revision). -/
structure SimulateInput where
  itemType : String
  assumedOrganic : Option Bool := none
deriving DecidableEq

/-- The simulatedResidues value computed by the simulateResults tool
body, by the simulated organic status. -/
def simulatedResiduesFor (isSimulatedOrganic : Bool) : List ChemicalResidue :=
  if isSimulatedOrganic then
    [ { name := "Natural Waxes (e.g., Carnauba from organic sources, C24H48O2)"
        hazardousEffects := some "Generally recognized as safe (GRAS) for consumption, common on organic produce for protection. This is a simulated residue for an assumed organic item."
        estimatedPercentage := some 0.001 }
    , { name := "Kaolin Clay (trace mineral, Al2Si2O5(OH)4)"
        estimatedPercentage := some 0.005
        hazardousEffects := some "Natural mineral, sometimes used in organic farming for pest control. Harmless in trace amounts. Simulated context." } ]
  else
    [ { name := "Simulated Pesticide Alpha (e.g., Organophosphate type, C10H19O6PS2)"
        estimatedPercentage := some 0.03
        hazardousEffects := some "Synthetic pesticide. May cause mild irritation if not washed properly. Potential neurotoxic effects with prolonged high exposure. Commonly used on non-organic fruits to control insects. Wash item thoroughly. (Simulated data)" }
    , { name := "Simulated Fungicide Beta (e.g., Triazole type, C15H17Cl2N3)"
        estimatedPercentage := some 0.015
        hazardousEffects := some "Synthetic fungicide to prevent spoilage. Potential for endocrine disruption with chronic exposure. Used on various crops. Wash item thoroughly. (Simulated data)" }
    , { name := "Simulated Wax Coating (Petroleum-based derivative)"
        estimatedPercentage := some 0.08
        hazardousEffects := some "Commonly used on conventional produce to extend shelf life and improve appearance. Generally considered safe in small amounts but some prefer to avoid. Can be removed by scrubbing. (Simulated data)" } ]

/-- The simulateResults tool body of the current revision of
analyze-food-item. -/
def simulateResults (input : SimulateInput) : AnalyzeFoodItemOutput :=
  let isSimulatedOrganic := input.assumedOrganic == some true
  let simulatedResidues := simulatedResiduesFor isSimulatedOrganic
  { identification :=
      { isFoodItem := true
        itemType := some input.itemType
        name := some ("Simulated " ++ (if isSimulatedOrganic then "Organic" else "Conventional") ++ " " ++ input.itemType)
        confidence := some 0.55
        dominantColors := some ["simulated color 1", "simulated color 2"]
        isOrganic := some isSimulatedOrganic
        organicReasoning := some (if isSimulatedOrganic
          then "Simulated as organic based on tool input; typically implies adherence to organic farming standards. This is a simulated assessment."
          else "Simulated as conventionally grown based on tool input; often involves synthetic pesticides and fertilizers. This is a simulated assessment.") }
    components := some
      { waterPercentage := some 80
        sugarPercentage := some (if isSimulatedOrganic then 7 else 5)
        fiberPercentage := some 3
        vitaminsAndMinerals := some ("Vitamin C, Potassium (Simulated values based on " ++ input.itemType ++ ")") }
    chemicalResidues := some simulatedResidues
    edibility := some "Wash & Eat" }

/-- Outcome of the analyzeFoodItemPrompt call: it throws, or it returns
with an optional structured output. -/
inductive PromptResult where
  | promptThrows
  | promptOk (output : Option AnalyzeFoodItemOutput)
deriving DecidableEq

/-- The analyzeFoodItemFlow of the current revision of
analyze-food-item, as a function of the prompt outcome. -/
def analyzeFoodItemFlow (pr : PromptResult) : AnalyzeFoodItemOutput :=
  match pr with
  | .promptThrows =>
    { identification := { isFoodItem := false, name := some "Analysis failed due to a system error." } }
  | .promptOk none =>
    { identification := { isFoodItem := false, name := some "Analysis incomplete. The AI could not process the image." } }
  | .promptOk (some output) =>
    if output.identification.isFoodItem = false then
      { identification :=
          { isFoodItem := false
            name := some (jsOrS output.identification.name "Non-food item detected or analysis error") } }
    else
      { output with identification :=
          { output.identification with
            isFoodItem := true
            name := some (jsOrS output.identification.name "Unnamed Food Item")
            isOrganic := some (output.identification.isOrganic.getD false)
            organicReasoning :=
              jsOrOptS output.identification.organicReasoning
                (if output.identification.isOrganic = none
                 then some "Organic status could not be determined from visual inspection."
                 else none) } }

end Food

/-! Supporting lemmas about the string primitives. -/

theorem dropWhile_dropWhile_eq (p : Char → Bool) (l : List Char) :
    (l.dropWhile p).dropWhile p = l.dropWhile p := by
  induction l with
  | nil => rfl
  | cons c rest ih =>
    by_cases h : p c
    · simp [List.dropWhile, h, ih]
    · simp [List.dropWhile, h]

theorem head?_dropWhile_all (p : Char → Bool) (l : List Char) :
    ((l.dropWhile p).head?).all (fun c => !p c) = true := by
  induction l with
  | nil => rfl
  | cons c rest ih =>
    by_cases h : p c
    · simp [List.dropWhile, h, ih]
    · simp [List.dropWhile, h]

theorem dropWhile_eq_self_of_head_all (p : Char → Bool) (l : List Char)
    (h : (l.head?).all (fun c => !p c) = true) : l.dropWhile p = l := by
  cases l with
  | nil => rfl
  | cons c rest =>
    simp only [List.head?_cons, Option.all_some] at h
    have hp : p c = false := by simpa using h
    simp [List.dropWhile_cons, hp]

theorem getLast?_dropWhile_of_ne_nil (p : Char → Bool) (l : List Char)
    (h : l.dropWhile p ≠ []) : (l.dropWhile p).getLast? = l.getLast? := by
  induction l with
  | nil => simp at h
  | cons c rest ih =>
    by_cases hc : p c
    · simp only [List.dropWhile, hc] at h ⊢
      have hrest : rest ≠ [] := by
        intro he
        apply h
        simp [he]
      rw [ih h]
      cases rest with
      | nil => exact absurd rfl hrest
      | cons d ds => simp [List.getLast?_cons_cons]
    · simp [List.dropWhile, hc]

theorem trimJsL_head_all (l : List Char) :
    ((trimJsL l).head?).all (fun c => !isJsSpace c) = true := by
  unfold trimJsL
  rw [List.head?_reverse]
  by_cases h : ((l.dropWhile isJsSpace).reverse.dropWhile isJsSpace) = []
  · simp [h]
  · rw [getLast?_dropWhile_of_ne_nil _ _ h, List.getLast?_reverse]
    exact head?_dropWhile_all isJsSpace l

theorem trimJsL_getLast_all (l : List Char) :
    ((trimJsL l).getLast?).all (fun c => !isJsSpace c) = true := by
  unfold trimJsL
  rw [List.getLast?_reverse]
  exact head?_dropWhile_all isJsSpace _

theorem trimJsL_dropWhile (l : List Char) :
    trimJsL (l.dropWhile isJsSpace) = trimJsL l := by
  unfold trimJsL
  rw [dropWhile_dropWhile_eq]

theorem string_append_ne_empty_left (a b : String) (h : a ≠ "") : a ++ b ≠ "" := by
  intro hc
  apply h
  have hd : a.data ++ b.data = ([] : List Char) := by
    have := congrArg String.data hc
    rwa [String.data_append] at this
  have ha : a.data = [] := (List.append_eq_nil.mp hd).1
  cases a
  simp only at ha
  simp [ha]

theorem jsOrS_ne_empty (a : Option String) (b : String) (h : b ≠ "") :
    jsOrS a b ≠ "" := by
  cases a with
  | none => exact h
  | some s =>
    by_cases hs : s = ""
    · simp [jsOrS, hs, h]
    · simp [jsOrS, hs]

theorem jsOrS_of_ne_empty (s : String) (b : String) (h : s ≠ "") :
    jsOrS (some s) b = s := by
  simp [jsOrS, h]

/-! Supporting lemmas about the splitting functions. -/

theorem splitPlain_ne_nil (l : List Char) : splitPlain l ≠ [] := by
  cases l with
  | nil => simp [splitPlain]
  | cons c rest =>
    by_cases h : isSepChar c = true
    · simp [splitPlain, h]
    · simp only [splitPlain, h]
      cases hs : splitPlain rest <;> simp [consHead]

theorem sep_not_space (c : Char) (h : isSepChar c = true) : isJsSpace c = false := by
  rcases Bool.or_eq_true _ _ |>.mp h with hc | hc
  · have := eq_of_beq hc; subst this; rfl
  · have := eq_of_beq hc; subst this; rfl

theorem splitFinalGo_eq_splitPlain (l : List Char) :
    splitFinalGo l true = (splitPlain l).map (List.dropWhile isJsSpace) ∧
    splitFinalGo l false = mapTail (List.dropWhile isJsSpace) (splitPlain l) := by
  induction l with
  | nil => exact ⟨rfl, rfl⟩
  | cons c rest ih =>
    obtain ⟨ih1, ih2⟩ := ih
    cases hs : splitPlain rest with
    | nil => exact absurd hs (splitPlain_ne_nil rest)
    | cons f fs =>
    rw [hs] at ih1 ih2
    by_cases hsep : isSepChar c = true
    · have hws := sep_not_space c hsep
      constructor
      · simp only [splitFinalGo, hws, hsep, Bool.and_false, Bool.false_eq_true,
          if_false, if_true, splitPlain, List.map_cons, ih1, hs]
        rfl
      · simp only [splitFinalGo, hws, hsep, Bool.false_and, Bool.and_false,
          Bool.false_eq_true, if_false, if_true, splitPlain, mapTail, ih1, hs]
    · by_cases hws : isJsSpace c = true
      · constructor
        · simp only [splitFinalGo, hws, hsep, Bool.and_true, if_true,
            Bool.false_eq_true, if_false, ih1, splitPlain, hs, consHead,
            List.map_cons, List.dropWhile_cons]
        · simp only [splitFinalGo, hws, hsep, Bool.false_and, Bool.false_eq_true,
            if_false, splitPlain, hs, consHead, mapTail, ih2]
      · constructor
        · simp only [splitFinalGo, hws, hsep, Bool.and_true, Bool.and_false,
            Bool.false_eq_true, if_false, splitPlain, hs, consHead, ih2, mapTail,
            List.map_cons, List.dropWhile_cons]
        · simp only [splitFinalGo, hws, hsep, Bool.false_and, Bool.false_eq_true,
            if_false, splitPlain, hs, consHead, ih2, mapTail]

theorem splitPlain_filter_underscore (l : List Char) :
    splitPlain (removeUnderscoresL l) = (splitPlain l).map removeUnderscoresL := by
  induction l with
  | nil => rfl
  | cons c rest ih =>
    cases hs : splitPlain rest with
    | nil => exact absurd hs (splitPlain_ne_nil rest)
    | cons f fs =>
    rw [hs] at ih
    by_cases hu : c = '_'
    · subst hu
      have h1 : removeUnderscoresL ('_' :: rest) = removeUnderscoresL rest := by
        simp [removeUnderscoresL, List.filter_cons]
      have h2 : splitPlain ('_' :: rest) = ('_' :: f) :: fs := by
        simp [splitPlain, hs, consHead, show isSepChar '_' = false from rfl]
      rw [h1, ih, h2]
      simp [removeUnderscoresL, List.filter_cons]
    · have hne : (c != '_') = true := by
        simp [bne_iff_ne]
        exact hu
      have h1 : removeUnderscoresL (c :: rest) = c :: removeUnderscoresL rest := by
        simp [removeUnderscoresL, List.filter_cons, hne]
      by_cases hsep : isSepChar c = true
      · have h2 : splitPlain (c :: rest) = [] :: f :: fs := by
          simp [splitPlain, hs, hsep]
        rw [h1]
        simp only [splitPlain, hsep, if_true, h2, List.map_cons]
        rw [ih, hs]
        simp [removeUnderscoresL]
      · have h2 : splitPlain (c :: rest) = (c :: f) :: fs := by
          simp [splitPlain, hs, hsep, consHead]
        rw [h1]
        simp only [splitPlain, hsep, Bool.false_eq_true, if_false, h2, List.map_cons]
        rw [ih, hs]
        simp [consHead, removeUnderscoresL, List.filter_cons, hne]

theorem firstParenClose_eq_false (l : List Char) (h : ∀ c ∈ l, c ≠ ')') :
    firstParenClose l = false := by
  induction l with
  | nil => rfl
  | cons c rest ih =>
    have hc : (c == ')') = false := by
      simp [beq_eq_false_iff_ne]
      exact h c (List.mem_cons_self c rest)
    simp only [firstParenClose, hc, Bool.false_eq_true, if_false]
    by_cases hp : (c == '(') = true
    · simp [hp]
    · simp only [hp, Bool.false_eq_true, if_false]
      exact ih (fun d hd => h d (List.mem_cons_of_mem c hd))

theorem firstBracketClose_eq_false (l : List Char) (h : ∀ c ∈ l, c ≠ ']') :
    firstBracketClose l = false := by
  induction l with
  | nil => rfl
  | cons c rest ih =>
    have hc : (c == ']') = false := by
      simp [beq_eq_false_iff_ne]
      exact h c (List.mem_cons_self c rest)
    simp only [firstBracketClose, hc, Bool.false_eq_true, if_false]
    by_cases hp : (c == '[') = true
    · simp [hp]
    · simp only [hp, Bool.false_eq_true, if_false]
      exact ih (fun d hd => h d (List.mem_cons_of_mem c hd))

theorem splitRespecting_eq_splitPlain (l : List Char)
    (h : ∀ c ∈ l, c ≠ ')' ∧ c ≠ ']') : splitRespecting l = splitPlain l := by
  induction l with
  | nil => rfl
  | cons c rest ih =>
    have hrest : ∀ d ∈ rest, d ≠ ')' ∧ d ≠ ']' :=
      fun d hd => h d (List.mem_cons_of_mem c hd)
    have hp : firstParenClose rest = false :=
      firstParenClose_eq_false rest (fun d hd => (hrest d hd).1)
    have hb : firstBracketClose rest = false :=
      firstBracketClose_eq_false rest (fun d hd => (hrest d hd).2)
    simp only [splitRespecting, splitPlain, hp, hb, Bool.not_false, Bool.and_true,
      ih hrest]

theorem map_trim_mapTail_dropWhile (L : List (List Char)) :
    (mapTail (List.dropWhile isJsSpace) L).map (fun f => (trimJsL f).asString) =
      L.map (fun f => (trimJsL f).asString) := by
  cases L with
  | nil => rfl
  | cons f fs =>
    simp only [mapTail, List.map_cons, List.map_map]
    congr 1
    apply List.map_congr_left
    intro a _
    simp only [Function.comp_apply, trimJsL_dropWhile]

theorem ite_length_pos_eq (A x : List String) :
    (if A.length > 0 then A else x) = (if A = [] then x else A) := by
  by_cases hA : A = []
  · subst hA; simp
  · simp [hA, List.length_pos.mpr hA]

/-! Supporting lemmas about the barcode flow. -/

theorem flow_fields (f : Barcode.FetchResult) (ai : Barcode.AIResult) :
    (Barcode.analyzeBarcodeFlow f ai).isFound = (Barcode.fetchProductInfoByBarcode f).isFound ∧
    (Barcode.analyzeBarcodeFlow f ai).productName = (Barcode.fetchProductInfoByBarcode f).productName ∧
    (Barcode.analyzeBarcodeFlow f ai).ingredients = (Barcode.fetchProductInfoByBarcode f).ingredients ∧
    (Barcode.analyzeBarcodeFlow f ai).allergens = (Barcode.fetchProductInfoByBarcode f).allergens ∧
    (Barcode.analyzeBarcodeFlow f ai).source = (Barcode.fetchProductInfoByBarcode f).source := by
  simp only [Barcode.analyzeBarcodeFlow]
  by_cases h : (Barcode.fetchProductInfoByBarcode f).isFound = false ∨
      (Barcode.fetchProductInfoByBarcode f).ingredients = none ∨
      (Barcode.fetchProductInfoByBarcode f).ingredients = some []
  · rw [if_pos h]
    exact ⟨rfl, rfl, rfl, rfl, rfl⟩
  · rw [if_neg h]
    cases ai <;> exact ⟨rfl, rfl, rfl, rfl, rfl⟩

theorem flow_notFound_passthrough (f : Barcode.FetchResult) (ai : Barcode.AIResult)
    (h : (Barcode.fetchProductInfoByBarcode f).isFound = false) :
    Barcode.analyzeBarcodeFlow f ai = Barcode.fetchProductInfoByBarcode f := by
  simp only [Barcode.analyzeBarcodeFlow]
  have hne : ¬ ((Barcode.fetchProductInfoByBarcode f).isFound = true) := by
    rw [h]; exact Bool.false_ne_true
  rw [if_pos (Or.inl h), if_neg hne]

theorem mem_ingredientsArrayOf (s x : String) (hx : x ∈ Barcode.ingredientsArrayOf s) :
    x ≠ "" ∧ x.toList.head?.all (fun c => !isJsSpace c) = true ∧
    x.toList.getLast?.all (fun c => !isJsSpace c) = true := by
  unfold Barcode.ingredientsArrayOf at hx
  obtain ⟨hmem, hne⟩ := List.mem_filter.mp hx
  obtain ⟨fchars, _, rfl⟩ := List.mem_map.mp hmem
  refine ⟨by simpa [bne_iff_ne] using hne, ?_, ?_⟩
  · exact trimJsL_head_all fchars
  · exact trimJsL_getLast_all fchars

/-! The claims. -/

/-- Claim C2: for every ingredients text delivered by the Open Food
Facts API (the English text when non-empty, else the default text, else
the empty string), the tool computes the ingredients list by removing
all underscores, splitting at a comma or semicolon followed by optional
whitespace, trimming each fragment and dropping empty fragments (the
pipeline ingredientsArrayOf); when that yields no fragments, the list
is the one-element list holding the raw text if the text is non-empty,
and the empty list if the text is empty. -/
theorem claim2_ingredient_pipeline (p : Barcode.OFFProduct) :
    (Barcode.fetchProductInfoByBarcode (.productFound p)).ingredients =
      some (
        if Barcode.ingredientsArrayOf (jsOrS p.ingredients_text_en (jsOrS p.ingredients_text "")) = []
        then (if jsOrS p.ingredients_text_en (jsOrS p.ingredients_text "") = "" then []
              else [jsOrS p.ingredients_text_en (jsOrS p.ingredients_text "")])
        else Barcode.ingredientsArrayOf (jsOrS p.ingredients_text_en (jsOrS p.ingredients_text ""))) := by
  simp only [Barcode.fetchProductInfoByBarcode]
  rw [ite_length_pos_eq]

/-- Claim C7: for every allergens_tags list delivered by the Open Food
Facts API, the tool computes the allergens list by cleaning each tag
(removing one leading prefix of exactly two lowercase letters followed
by a colon when present, replacing every hyphen by a space, trimming)
and dropping tags that become empty; the map-then-filter form preserves
the relative order of the remaining tags. -/
theorem claim7_allergen_tags (p : Barcode.OFFProduct) :
    (Barcode.fetchProductInfoByBarcode (.productFound p)).allergens =
      some (((p.allergens_tags.getD []).map cleanAllergenTag).filter (fun a => a != "")) := rfl

/-- Claim C8 counterexample: the two revisions of the ingredient
splitting are not equivalent for every ingredients string; on the
string a(b,c) the final revision splits inside the parentheses while
the earlier revision does not. -/
theorem claim8_counterexample :
    Barcode.ingredientsArrayOf "a(b,c)" = ["a(b", "c)"] ∧
    Barcode.ingredientsArrayEarlierOf "a(b,c)" = ["a(b,c)"] ∧
    Barcode.ingredientsArrayOf "a(b,c)" ≠ Barcode.ingredientsArrayEarlierOf "a(b,c)" := by
  decide

/-- Claim C8 amended: on every ingredients string that contains no
closing parenthesis and no closing square bracket (so that the
lookaheads of the earlier regex never suppress a split), the final
revision of the ingredient splitting produces the same list as the
earlier revision. -/
theorem claim8_amended (s : String) (h : ∀ c ∈ s.toList, c ≠ ')' ∧ c ≠ ']') :
    Barcode.ingredientsArrayOf s = Barcode.ingredientsArrayEarlierOf s := by
  unfold Barcode.ingredientsArrayOf Barcode.ingredientsArrayEarlierOf
  rw [(splitFinalGo_eq_splitPlain (removeUnderscoresL s.toList)).2,
    splitRespecting_eq_splitPlain s.toList h,
    splitPlain_filter_underscore s.toList,
    map_trim_mapTail_dropWhile, List.map_map]
  rfl

/-- Witness for the amended claim C8 at a concrete input. -/
theorem claim8_amended_witness :
    (∀ c ∈ ("Sugar, _Salt_;  Corn (roasted" : String).toList, c ≠ ')' ∧ c ≠ ']') ∧
    Barcode.ingredientsArrayOf "Sugar, _Salt_;  Corn (roasted" =
      Barcode.ingredientsArrayEarlierOf "Sugar, _Salt_;  Corn (roasted" :=
  ⟨by decide, claim8_amended "Sugar, _Salt_;  Corn (roasted" (by decide)⟩

/-- Claim C5 counterexample: the earliest mock revision does not return
isFound false for the database entry 000000000000 that is marked not
found; it returns isFound true with the productName of the entry. -/
theorem claim5_counterexample :
    Mock.mockLookup "000000000000" =
      some { isFound := false, productName := some "Unknown Product" } ∧
    (Mock.fetchProductInfoByBarcodeV1 "000000000000").isFound = true ∧
    (Mock.fetchProductInfoByBarcodeV1 "000000000000").productName = some "Unknown Product" := by
  decide

/-- Claim C5 amended: the second mock revision returns the found-case
output exactly for barcodes whose database entry is marked found and
the fixed not-found output otherwise; the earliest revision instead
returns the found-case output for every barcode present in the
database, whatever its mark, and the fixed not-found output only for
barcodes absent from the database. -/
theorem claim5_amended (b : String) :
    (match Mock.mockLookup b with
     | none =>
       Mock.fetchProductInfoByBarcodeV1 b = Mock.mockNotFoundOutput ∧
       Mock.fetchProductInfoByBarcodeV2 b = Mock.mockNotFoundOutput
     | some e =>
       Mock.fetchProductInfoByBarcodeV1 b = Mock.mockFoundOutput e ∧
       Mock.fetchProductInfoByBarcodeV2 b =
         (if e.isFound then Mock.mockFoundOutput e else Mock.mockNotFoundOutput)) := by
  cases h : Mock.mockLookup b with
  | none =>
    exact ⟨by simp [Mock.fetchProductInfoByBarcodeV1, h],
      by simp [Mock.fetchProductInfoByBarcodeV2, h]⟩
  | some e =>
    exact ⟨by simp [Mock.fetchProductInfoByBarcodeV1, h],
      by simp [Mock.fetchProductInfoByBarcodeV2, h]⟩

/-- Claim C1 counterexample: when the prompt call succeeds but supplies
the empty string as overallAssessment, the flow does not take the
assessment from the AI analysis; the JavaScript || treats the empty
string as falsy and substitutes the fixed fallback sentence, so the
claim as stated fails at this input. -/
theorem claim1_counterexample :
    (Barcode.fetchProductInfoByBarcode (.productFound { ingredients_text := some "Sugar, Salt" })).isFound = true ∧
    (Barcode.fetchProductInfoByBarcode (.productFound { ingredients_text := some "Sugar, Salt" })).ingredients = some ["Sugar", "Salt"] ∧
    (Barcode.analyzeBarcodeFlow (.productFound { ingredients_text := some "Sugar, Salt" })
        (.promptOk (some { overallAssessment := some "" }))).overallAssessment =
      some "AI analysis of ingredients could not be completed." ∧
    (Barcode.analyzeBarcodeFlow (.productFound { ingredients_text := some "Sugar, Salt" })
        (.promptOk (some { overallAssessment := some "" }))).overallAssessment ≠ some "" := by
  decide

/-- Claim C1 amended: when the fetched product is found with a
non-empty ingredients list and the prompt call succeeds, the result is
the tool output with only potentialConcerns and overallAssessment
replaced: potentialConcerns is the AI list when supplied and the empty
list otherwise, and overallAssessment is the AI string when supplied
and non-empty, and the fixed fallback sentence when the AI omits it or
supplies the empty string.  All factual fields of the tool output
(isFound, productName, brand, ingredients, allergens, imageUrl,
source) are preserved verbatim by the record update form. -/
theorem claim1_amended (p : Barcode.OFFProduct) (output : Option Barcode.AIAnalysis)
    (h : (Barcode.fetchProductInfoByBarcode (.productFound p)).ingredients ≠ some []) :
    Barcode.analyzeBarcodeFlow (.productFound p) (.promptOk output) =
      { Barcode.fetchProductInfoByBarcode (.productFound p) with
        potentialConcerns := some ((output.bind Barcode.AIAnalysis.potentialConcerns).getD [])
        overallAssessment := some (jsOrS (output.bind Barcode.AIAnalysis.overallAssessment)
          "AI analysis of ingredients could not be completed.") } := by
  have hcond : ¬ ((Barcode.fetchProductInfoByBarcode (.productFound p)).isFound = false ∨
      (Barcode.fetchProductInfoByBarcode (.productFound p)).ingredients = none ∨
      (Barcode.fetchProductInfoByBarcode (.productFound p)).ingredients = some []) := by
    push_neg
    refine ⟨by simp [Barcode.fetchProductInfoByBarcode], ?_, h⟩
    simp [Barcode.fetchProductInfoByBarcode]
  simp only [Barcode.analyzeBarcodeFlow]
  rw [if_neg hcond]

/-- Witness for the amended claim C1 at a concrete input. -/
theorem claim1_amended_witness :
    (Barcode.fetchProductInfoByBarcode (.productFound { ingredients_text := some "Water" })).ingredients ≠ some [] ∧
    Barcode.analyzeBarcodeFlow (.productFound { ingredients_text := some "Water" }) (.promptOk none) =
      { Barcode.fetchProductInfoByBarcode (.productFound { ingredients_text := some "Water" }) with
        potentialConcerns := some ((Option.bind (none : Option Barcode.AIAnalysis) Barcode.AIAnalysis.potentialConcerns).getD [])
        overallAssessment := some (jsOrS (Option.bind (none : Option Barcode.AIAnalysis) Barcode.AIAnalysis.overallAssessment)
          "AI analysis of ingredients could not be completed.") } :=
  ⟨by decide, claim1_amended { ingredients_text := some "Water" } none (by decide)⟩

/-- Claim C3: the flow resolves in every environment (it is a total
function of the fetch and prompt outcomes).  When the fetch throws,
when the response status is non-ok, and when the API reports the
product missing, the flow result is the tool fallback record:
isFound false, empty ingredient, allergen and concern lists, and a
non-empty explanatory overallAssessment.  When the prompt call throws
after a successful fetch with a non-empty ingredients list, the flow
result is the tool product data with the fixed fallback
overallAssessment asking the user to review ingredients manually. -/
theorem claim3_error_handling :
    (∀ (status : Nat) (ai : Barcode.AIResult),
      Barcode.analyzeBarcodeFlow (.httpError status) ai = Barcode.fetchProductInfoByBarcode (.httpError status) ∧
      (Barcode.analyzeBarcodeFlow (.httpError status) ai).isFound = false ∧
      (Barcode.analyzeBarcodeFlow (.httpError status) ai).ingredients = some [] ∧
      (Barcode.analyzeBarcodeFlow (.httpError status) ai).allergens = some [] ∧
      (Barcode.analyzeBarcodeFlow (.httpError status) ai).potentialConcerns = some [] ∧
      (Barcode.analyzeBarcodeFlow (.httpError status) ai).overallAssessment.getD "" ≠ "") ∧
    (∀ ai : Barcode.AIResult,
      Barcode.analyzeBarcodeFlow .fetchThrows ai = Barcode.fetchProductInfoByBarcode .fetchThrows ∧
      (Barcode.analyzeBarcodeFlow .fetchThrows ai).isFound = false ∧
      (Barcode.analyzeBarcodeFlow .fetchThrows ai).ingredients = some [] ∧
      (Barcode.analyzeBarcodeFlow .fetchThrows ai).allergens = some [] ∧
      (Barcode.analyzeBarcodeFlow .fetchThrows ai).potentialConcerns = some [] ∧
      (Barcode.analyzeBarcodeFlow .fetchThrows ai).overallAssessment.getD "" ≠ "") ∧
    (∀ ai : Barcode.AIResult,
      Barcode.analyzeBarcodeFlow .productMissing ai = Barcode.fetchProductInfoByBarcode .productMissing ∧
      (Barcode.analyzeBarcodeFlow .productMissing ai).isFound = false ∧
      (Barcode.analyzeBarcodeFlow .productMissing ai).ingredients = some [] ∧
      (Barcode.analyzeBarcodeFlow .productMissing ai).allergens = some [] ∧
      (Barcode.analyzeBarcodeFlow .productMissing ai).potentialConcerns = some [] ∧
      (Barcode.analyzeBarcodeFlow .productMissing ai).overallAssessment.getD "" ≠ "") ∧
    (∀ p : Barcode.OFFProduct,
      (Barcode.fetchProductInfoByBarcode (.productFound p)).ingredients ≠ some [] →
      Barcode.analyzeBarcodeFlow (.productFound p) .promptThrows =
        { Barcode.fetchProductInfoByBarcode (.productFound p) with
          overallAssessment := some "An error occurred during AI analysis of ingredients. Product details shown, but please review ingredients manually." }) := by
  refine ⟨?_, ?_, ?_, ?_⟩
  · intro status ai
    have hpass := flow_notFound_passthrough (.httpError status) ai rfl
    rw [hpass]
    refine ⟨rfl, rfl, rfl, rfl, rfl, ?_⟩
    show ("Could not retrieve information from Open Food Facts. The API returned status " ++
      toString status ++ ". This could be due to an invalid barcode or a temporary issue with the service.") ≠ ""
    exact string_append_ne_empty_left _ _ (string_append_ne_empty_left _ _ (by decide))
  · intro ai
    have hpass := flow_notFound_passthrough .fetchThrows ai rfl
    rw [hpass]
    exact ⟨rfl, rfl, rfl, rfl, rfl, by decide⟩
  · intro ai
    have hpass := flow_notFound_passthrough .productMissing ai rfl
    rw [hpass]
    exact ⟨rfl, rfl, rfl, rfl, rfl, by decide⟩
  · intro p h
    have hcond : ¬ ((Barcode.fetchProductInfoByBarcode (.productFound p)).isFound = false ∨
        (Barcode.fetchProductInfoByBarcode (.productFound p)).ingredients = none ∨
        (Barcode.fetchProductInfoByBarcode (.productFound p)).ingredients = some []) := by
      push_neg
      refine ⟨by simp [Barcode.fetchProductInfoByBarcode], ?_, h⟩
      simp [Barcode.fetchProductInfoByBarcode]
    simp only [Barcode.analyzeBarcodeFlow]
    rw [if_neg hcond]

/-- Witness for claim C3 at concrete inputs, discharging the non-empty
ingredients hypothesis of the prompt-throws conjunct. -/
theorem claim3_error_handling_witness :
    (Barcode.fetchProductInfoByBarcode (.productFound { ingredients_text := some "Water" })).ingredients ≠ some [] ∧
    Barcode.analyzeBarcodeFlow (.productFound { ingredients_text := some "Water" }) .promptThrows =
      { Barcode.fetchProductInfoByBarcode (.productFound { ingredients_text := some "Water" }) with
        overallAssessment := some "An error occurred during AI analysis of ingredients. Product details shown, but please review ingredients manually." } ∧
    (Barcode.analyzeBarcodeFlow (.httpError 500) .promptThrows).isFound = false :=
  ⟨by decide,
   claim3_error_handling.2.2.2 { ingredients_text := some "Water" } (by decide),
   (claim3_error_handling.1 500 .promptThrows).2.1⟩

/-- Claim C6: whenever the tool reports the product not found, or found
with a missing or empty ingredients list, the flow returns the tool
result with only overallAssessment replaced (the fixed
missing-ingredient sentence in the found case, the tool original
message in the not-found case), and the result does not depend on the
prompt outcome: the hosted model is never consulted. -/
theorem claim6_skip_ai (f : Barcode.FetchResult) (ai ai2 : Barcode.AIResult)
    (h : (Barcode.fetchProductInfoByBarcode f).isFound = false ∨
         (Barcode.fetchProductInfoByBarcode f).ingredients = none ∨
         (Barcode.fetchProductInfoByBarcode f).ingredients = some []) :
    Barcode.analyzeBarcodeFlow f ai =
      { Barcode.fetchProductInfoByBarcode f with
        overallAssessment := if (Barcode.fetchProductInfoByBarcode f).isFound
          then some "Product information was found, but ingredient data is missing. Analysis cannot be performed."
          else (Barcode.fetchProductInfoByBarcode f).overallAssessment } ∧
    Barcode.analyzeBarcodeFlow f ai = Barcode.analyzeBarcodeFlow f ai2 := by
  constructor
  · simp only [Barcode.analyzeBarcodeFlow]
    rw [if_pos h]
  · simp only [Barcode.analyzeBarcodeFlow]
    rw [if_pos h, if_pos h]

/-- Witness for claim C6 at a concrete input: a product found with an
empty ingredients text. -/
theorem claim6_skip_ai_witness :
    ((Barcode.fetchProductInfoByBarcode (.productFound {})).isFound = false ∨
     (Barcode.fetchProductInfoByBarcode (.productFound {})).ingredients = none ∨
     (Barcode.fetchProductInfoByBarcode (.productFound {})).ingredients = some []) ∧
    (Barcode.analyzeBarcodeFlow (.productFound {}) .promptThrows =
      { Barcode.fetchProductInfoByBarcode (.productFound {}) with
        overallAssessment := if (Barcode.fetchProductInfoByBarcode (.productFound {})).isFound
          then some "Product information was found, but ingredient data is missing. Analysis cannot be performed."
          else (Barcode.fetchProductInfoByBarcode (.productFound {})).overallAssessment } ∧
     Barcode.analyzeBarcodeFlow (.productFound {}) .promptThrows =
       Barcode.analyzeBarcodeFlow (.productFound {}) (.promptOk none)) :=
  ⟨Or.inr (Or.inr (by decide)),
   claim6_skip_ai (.productFound {}) .promptThrows (.promptOk none) (Or.inr (Or.inr (by decide)))⟩

/-- Claim C10 counterexample: the flow can return a found result whose
non-empty ingredients list holds an element with leading and trailing
whitespace: when splitting yields no fragments, the raw text is kept
untrimmed as the single element. -/
theorem claim10_counterexample :
    (Barcode.analyzeBarcodeFlow (.productFound { ingredients_text := some " ; " }) (.promptOk none)).isFound = true ∧
    (Barcode.analyzeBarcodeFlow (.productFound { ingredients_text := some " ; " }) (.promptOk none)).ingredients = some [" ; "] ∧
    (" ; " : String).toList.head?.all (fun c => !isJsSpace c) = false := by
  decide

/-- Claim C10 amended: every flow result with isFound false has
ingredients, allergens and potentialConcerns equal to the empty list;
every result with isFound true has a non-empty productName and a
defined source; every element of the ingredients list is a non-empty
string; and when the splitting pipeline yields at least one fragment
(so the raw-text fallback is not used), every element of the
ingredients list is free of leading and trailing whitespace. -/
theorem claim10_amended (f : Barcode.FetchResult) (ai : Barcode.AIResult) :
    ((Barcode.analyzeBarcodeFlow f ai).isFound = false →
       (Barcode.analyzeBarcodeFlow f ai).ingredients = some [] ∧
       (Barcode.analyzeBarcodeFlow f ai).allergens = some [] ∧
       (Barcode.analyzeBarcodeFlow f ai).potentialConcerns = some []) ∧
    ((Barcode.analyzeBarcodeFlow f ai).isFound = true →
       (Barcode.analyzeBarcodeFlow f ai).productName.getD "" ≠ "" ∧
       (Barcode.analyzeBarcodeFlow f ai).source.isSome = true) ∧
    (∀ l, (Barcode.analyzeBarcodeFlow f ai).ingredients = some l → ∀ x ∈ l, x ≠ "") ∧
    (∀ p, f = Barcode.FetchResult.productFound p →
       Barcode.ingredientsArrayOf (jsOrS p.ingredients_text_en (jsOrS p.ingredients_text "")) ≠ [] →
       ∀ l, (Barcode.analyzeBarcodeFlow f ai).ingredients = some l →
         ∀ x ∈ l, x.toList.head?.all (fun c => !isJsSpace c) = true ∧
                  x.toList.getLast?.all (fun c => !isJsSpace c) = true) := by
  cases f with
  | fetchThrows =>
    rw [flow_notFound_passthrough .fetchThrows ai rfl]
    refine ⟨fun _ => ⟨rfl, rfl, rfl⟩, fun hc => absurd hc (by decide), ?_, ?_⟩
    · intro l hl x hx
      simp only [Barcode.fetchProductInfoByBarcode, Option.some.injEq] at hl
      subst hl
      simp at hx
    · intro p hp
      simp at hp
  | httpError status =>
    rw [flow_notFound_passthrough (.httpError status) ai rfl]
    refine ⟨fun _ => ⟨rfl, rfl, rfl⟩, ?_, ?_, ?_⟩
    · intro hc
      simp [Barcode.fetchProductInfoByBarcode] at hc
    · intro l hl x hx
      simp only [Barcode.fetchProductInfoByBarcode, Option.some.injEq] at hl
      subst hl
      simp at hx
    · intro p hp
      simp at hp
  | productMissing =>
    rw [flow_notFound_passthrough .productMissing ai rfl]
    refine ⟨fun _ => ⟨rfl, rfl, rfl⟩, fun hc => absurd hc (by decide), ?_, ?_⟩
    · intro l hl x hx
      simp only [Barcode.fetchProductInfoByBarcode, Option.some.injEq] at hl
      subst hl
      simp at hx
    · intro p hp
      simp at hp
  | productFound p =>
    obtain ⟨hF, hN, hI, hA, hS⟩ := flow_fields (.productFound p) ai
    refine ⟨?_, ?_, ?_, ?_⟩
    · intro hc
      rw [hF] at hc
      simp [Barcode.fetchProductInfoByBarcode] at hc
    · intro _
      constructor
      · rw [hN]
        show (jsOrS p.product_name_en (jsOrS p.product_name "N/A")) ≠ ""
        exact jsOrS_ne_empty _ _ (jsOrS_ne_empty _ _ (by decide))
      · rw [hS]
        rfl
    · intro l hl x hx
      rw [hI] at hl
      simp only [Barcode.fetchProductInfoByBarcode, Option.some.injEq] at hl
      rw [ite_length_pos_eq] at hl
      subst hl
      by_cases hE : Barcode.ingredientsArrayOf (jsOrS p.ingredients_text_en (jsOrS p.ingredients_text "")) = []
      · rw [if_pos hE] at hx
        by_cases hs : jsOrS p.ingredients_text_en (jsOrS p.ingredients_text "") = ""
        · rw [if_pos hs] at hx
          simp at hx
        · rw [if_neg hs] at hx
          simp only [List.mem_singleton] at hx
          subst hx
          exact hs
      · rw [if_neg hE] at hx
        exact (mem_ingredientsArrayOf _ x hx).1
    · intro p' hp hNE l hl x hx
      injection hp with hpe
      subst hpe
      rw [hI] at hl
      simp only [Barcode.fetchProductInfoByBarcode, Option.some.injEq] at hl
      rw [ite_length_pos_eq, if_neg hNE] at hl
      subst hl
      exact ⟨(mem_ingredientsArrayOf _ x hx).2.1, (mem_ingredientsArrayOf _ x hx).2.2⟩

/-- Witness for the amended claim C10 at a concrete input, discharging
the hypotheses of the trimmedness conjunct. -/
theorem claim10_amended_witness :
    Barcode.ingredientsArrayOf (jsOrS (Barcode.OFFProduct.ingredients_text_en { ingredients_text := some "Sugar, Salt" })
      (jsOrS (Barcode.OFFProduct.ingredients_text { ingredients_text := some "Sugar, Salt" }) "")) ≠ [] ∧
    (Barcode.analyzeBarcodeFlow (.productFound { ingredients_text := some "Sugar, Salt" }) (.promptOk none)).ingredients = some ["Sugar", "Salt"] ∧
    ("Sugar".toList.head?.all (fun c => !isJsSpace c) = true ∧
     "Sugar".toList.getLast?.all (fun c => !isJsSpace c) = true) :=
  ⟨by decide, by decide,
   (claim10_amended (.productFound { ingredients_text := some "Sugar, Salt" }) (.promptOk none)).2.2.2
     { ingredients_text := some "Sugar, Salt" } rfl (by decide) ["Sugar", "Salt"] (by decide) "Sugar" (by decide)⟩

theorem jsOrOptS_of_ne_empty (s : String) (b : Option String) (h : s ≠ "") :
    jsOrOptS (some s) b = some s := by
  simp [jsOrOptS, h]

theorem flow_simulate_passthrough (input : Food.SimulateInput) :
    Food.analyzeFoodItemFlow (.promptOk (some (Food.simulateResults input))) =
      Food.simulateResults input := by
  have hfood : ¬ ((Food.simulateResults input).identification.isFoodItem = false) := by
    simp [Food.simulateResults]
  simp only [Food.analyzeFoodItemFlow]
  rw [if_neg hfood]
  have hnm : (Food.simulateResults input).identification.name =
      some ("Simulated " ++ (if input.assumedOrganic == some true then "Organic" else "Conventional") ++ " " ++ input.itemType) := rfl
  have hor : (Food.simulateResults input).identification.isOrganic =
      some (input.assumedOrganic == some true) := rfl
  have hre : (Food.simulateResults input).identification.organicReasoning =
      some (if input.assumedOrganic == some true
        then "Simulated as organic based on tool input; typically implies adherence to organic farming standards. This is a simulated assessment."
        else "Simulated as conventionally grown based on tool input; often involves synthetic pesticides and fertilizers. This is a simulated assessment.") := rfl
  have hS : ("Simulated " ++ (if input.assumedOrganic == some true then "Organic" else "Conventional") ++ " " ++ input.itemType) ≠ "" :=
    string_append_ne_empty_left _ _ (string_append_ne_empty_left _ _ (string_append_ne_empty_left _ _ (by decide)))
  have hR : (if input.assumedOrganic == some true
      then "Simulated as organic based on tool input; typically implies adherence to organic farming standards. This is a simulated assessment."
      else "Simulated as conventionally grown based on tool input; often involves synthetic pesticides and fertilizers. This is a simulated assessment.") ≠ "" := by
    cases hb : (input.assumedOrganic == some true) <;> simp [hb]
  rw [hnm, hre, hor, jsOrS_of_ne_empty _ _ hS, jsOrOptS_of_ne_empty _ _ hR]
  simp only [Option.getD_some, reduceCtorEq, if_false]
  rw [← hnm, ← hre, ← hor]
  have hif : (Food.simulateResults input).identification.isFoodItem = true := rfl
  rw [← hif]

/-- Claim C4 counterexample: on error of the hosted-model call the
orchestration function does not fall back to the simulated data of the
simulateResults tool; it returns a non-food error object with no
edibility, while every simulateResults output is a food item with
edibility Wash and Eat. -/
theorem claim4_counterexample :
    (Food.analyzeFoodItemFlow .promptThrows).identification.isFoodItem = false ∧
    (Food.analyzeFoodItemFlow .promptThrows).identification.name = some "Analysis failed due to a system error." ∧
    (Food.analyzeFoodItemFlow .promptThrows).edibility = none ∧
    (Food.simulateResults { itemType := "apple" }).identification.isFoodItem = true ∧
    (Food.simulateResults { itemType := "apple" }).edibility = some "Wash & Eat" ∧
    Food.analyzeFoodItemFlow .promptThrows ≠ Food.simulateResults { itemType := "apple" } := by
  decide

/-- Claim C4 amended: the low-confidence fallback is realized by the
simulateResults tool, which the model is instructed to call; its output
is a simulated food identification with confidence 0.55, simulated
components, simulated residues chosen by the assumedOrganic flag, and
edibility Wash and Eat, and the orchestration function passes that
output through unchanged.  On error of the hosted-model call the
orchestration function still returns an object, but it is the fixed
non-food error object, not simulated data. -/
theorem claim4_amended :
    (∀ input : Food.SimulateInput,
      (Food.simulateResults input).identification.isFoodItem = true ∧
      (Food.simulateResults input).identification.confidence = some 0.55 ∧
      (Food.simulateResults input).edibility = some "Wash & Eat" ∧
      (Food.simulateResults input).components = some
        { waterPercentage := some 80
          sugarPercentage := some (if input.assumedOrganic == some true then 7 else 5)
          fiberPercentage := some 3
          vitaminsAndMinerals := some ("Vitamin C, Potassium (Simulated values based on " ++ input.itemType ++ ")") } ∧
      (Food.simulateResults input).chemicalResidues = some (Food.simulatedResiduesFor (input.assumedOrganic == some true)) ∧
      Food.analyzeFoodItemFlow (.promptOk (some (Food.simulateResults input))) = Food.simulateResults input) ∧
    Food.analyzeFoodItemFlow .promptThrows =
      { identification := { isFoodItem := false, name := some "Analysis failed due to a system error." } } :=
  ⟨fun input => ⟨rfl, rfl, rfl, rfl, rfl, flow_simulate_passthrough input⟩, rfl⟩

/-- Claim C9: whenever the model output marks the item as non-food, and
whenever the prompt call throws or yields no structured output, the
flow returns an object whose identification holds only isFoodItem
false and a non-empty name (the model name when non-empty, else the
fixed default or error message), with every food-specific field
(itemType, confidence, dominantColors, isOrganic, organicReasoning,
components, chemicalResidues, edibility) absent. -/
theorem claim9_nonfood_frame :
    (∀ o : Food.AnalyzeFoodItemOutput, o.identification.isFoodItem = false →
      Food.analyzeFoodItemFlow (.promptOk (some o)) =
        { identification :=
            { isFoodItem := false
              name := some (jsOrS o.identification.name "Non-food item detected or analysis error") } } ∧
      jsOrS o.identification.name "Non-food item detected or analysis error" ≠ "" ∧
      (Food.analyzeFoodItemFlow (.promptOk (some o))).identification.itemType = none ∧
      (Food.analyzeFoodItemFlow (.promptOk (some o))).identification.confidence = none ∧
      (Food.analyzeFoodItemFlow (.promptOk (some o))).identification.dominantColors = none ∧
      (Food.analyzeFoodItemFlow (.promptOk (some o))).identification.isOrganic = none ∧
      (Food.analyzeFoodItemFlow (.promptOk (some o))).identification.organicReasoning = none ∧
      (Food.analyzeFoodItemFlow (.promptOk (some o))).components = none ∧
      (Food.analyzeFoodItemFlow (.promptOk (some o))).chemicalResidues = none ∧
      (Food.analyzeFoodItemFlow (.promptOk (some o))).edibility = none) ∧
    (Food.analyzeFoodItemFlow .promptThrows =
      { identification := { isFoodItem := false, name := some "Analysis failed due to a system error." } }) ∧
    (Food.analyzeFoodItemFlow (.promptOk none) =
      { identification := { isFoodItem := false, name := some "Analysis incomplete. The AI could not process the image." } }) := by
  refine ⟨?_, rfl, rfl⟩
  intro o ho
  simp only [Food.analyzeFoodItemFlow]
  rw [if_pos ho]
  exact ⟨rfl, jsOrS_ne_empty _ _ (by decide), rfl, rfl, rfl, rfl, rfl, rfl, rfl, rfl⟩

/-- Witness for claim C9 at a concrete non-food model output. -/
theorem claim9_nonfood_frame_witness :
    ({ identification := { isFoodItem := false } } : Food.AnalyzeFoodItemOutput).identification.isFoodItem = false ∧
    Food.analyzeFoodItemFlow (.promptOk (some { identification := { isFoodItem := false } })) =
      { identification :=
          { isFoodItem := false
            name := some (jsOrS (({ identification := { isFoodItem := false } } : Food.AnalyzeFoodItemOutput).identification.name)
              "Non-food item detected or analysis error") } } :=
  ⟨rfl, (claim9_nonfood_frame.1 { identification := { isFoodItem := false } } rfl).1⟩
